import Mathlib

/-!
Shallow embedding of `cmds/installd/otapreopt_chroot.cpp`.

The program is a single sequential routine that sets up a chroot environment
for the `otapreopt` tool: it closes inherited descriptors, unshares the mount
namespace, bind-mounts core directories into `/postinstall`, best-effort
mounts the vendor/product partitions, finalizes the staging root
(tmpfs + restorecon + chmod + chown + chdir + chroot + chdir), activates APEX
packages, bind-mounts Bionic artifacts, and finally executes the sub-process,
deactivating the APEX packages on every path after activation.

We model every syscall outcome through an `Env` oracle and record every
attempted externally visible operation as an `Event` in a trace.  The main
function returns the process exit code together with the trace of events
performed before termination (`0` for the `return 0` path).
-/

namespace Otapreopt

/-- Externally visible operations attempted by the program, in program order.
Every syscall attempt is recorded, whether or not it succeeds. -/
inductive Event where
  | closeFd (fd : Int)
  | unshare
  | mountCall (source target fstype : String) (flags : List String)
  | restorecon (path : String)
  | chmodCall (path : String) (mode : Nat)
  | chownCall (path : String) (uid gid : Nat)
  | chdirCall (path : String)
  | chrootCall (path : String)
  | scanActivate (dir : String)
  | deactivate (packagePath : String)
  | execCall (cmd : List String)
  deriving DecidableEq, Repr

/-- Outcome oracle for the fallible external calls made by the program.
`bindOk` decides the result of each `MS_BIND` mount by (source, target);
`pathExists` models `access(path, F_OK) == 0`; `validSlot` is the external
`ValidateTargetSlotSuffix` predicate (consumed as a pure predicate per the
spec); `activePackages` is the list of package paths returned by
`apex::getActivePackages()` after the scan-and-activate call. -/
structure Env where
  unshareOk : Bool
  privateMountOk : Bool
  bindOk : String → String → Bool
  validSlot : String → Bool
  tmpfsOk : Bool
  restoreconOk : Bool
  chmodOk : Bool
  chownOk : Bool
  chdirPostinstallOk : Bool
  chrootOk : Bool
  chdirRootOk : Bool
  pathExists : String → Bool
  activePackages : List String
  execOk : Bool

/- Configuration constants for bind-mounted Bionic artifacts. -/

def kLinkerMountPoint : String := "/bionic/bin/linker"
def kRuntimeLinkerPath : String := "/apex/com.android.runtime/bin/linker"

def kBionicLibsMountPointDir : String := "/bionic/lib/"
def kRuntimeBionicLibsDir : String := "/apex/com.android.runtime/lib/bionic/"

def kLinkerMountPoint64 : String := "/bionic/bin/linker64"
def kRuntimeLinkerPath64 : String := "/apex/com.android.runtime/bin/linker64"

def kBionicLibsMountPointDir64 : String := "/bionic/lib64/"
def kRuntimeBionicLibsDir64 : String := "/apex/com.android.runtime/lib64/bionic/"

def kBionicLibFileNames : List String := ["libc.so", "libm.so", "libdl.so"]

/-- `apex::kApexPackageSystemDir`, the fixed system APEX directory scanned by
`ActivateApexPackages` (constant of the external apexd library). -/
def kApexPackageSystemDir : String := "/system/apex"

/-- The fixed list of host directories bind-mounted into the staging root. -/
def kBindMounts : List String := ["/data", "/dev", "/proc", "/sys"]

/-- `CloseDescriptor(int fd)`: close `fd` if it is non-negative; the result of
`close` is discarded.  Returns the events performed. -/
def CloseDescriptorInt (fd : Int) : List Event :=
  if 0 ≤ fd then [Event.closeFd fd] else []

/-- Whitespace as classified by `std::isspace` in the default locale, which is
what `istream >> int` skips before parsing. -/
def isStreamSpace (c : Char) : Bool :=
  c = ' ' || c = '\t' || c = '\n' || c = '\x0d' || c = '\x0b' || c = '\x0c'

/-- Numeric value of a list of decimal digit characters. -/
def digitsToNat (ds : List Char) : Nat :=
  ds.foldl (fun acc c => 10 * acc + (c.toNat - '0'.toNat)) 0

/-- The integer-extraction semantics of `std::istringstream >> int`:
skip leading whitespace, accept an optional sign, then require at least one
decimal digit; the longest digit prefix is consumed.  On no digits, or on a
value outside the range of `int` (32-bit), the stream's failbit is set, which
we model as `none`. -/
def parseIntStream (s : String) : Option Int :=
  let cs := s.data.dropWhile isStreamSpace
  let signAndRest : Int × List Char :=
    match cs with
    | '-' :: rest => (-1, rest)
    | '+' :: rest => (1, rest)
    | _ => (1, cs)
  let ds := signAndRest.2.takeWhile Char.isDigit
  if ds = [] then none
  else
    let v : Int := signAndRest.1 * (digitsToNat ds : Int)
    if v < -(2 ^ 31) ∨ (2 ^ 31 - 1 : Int) < v then none else some v

/-- `CloseDescriptor(const char* descriptor_string)`: parse the string with an
`istringstream`; if parsing did not fail, call `CloseDescriptor(int)` on the
parsed value.  Returns the events performed. -/
def CloseDescriptorStr (s : String) : List Event :=
  match parseIntStream s with
  | none => []
  | some fd => CloseDescriptorInt fd

/-- `BindMount`: one `mount(source, mount_point, nullptr, MS_BIND [| MS_REC])`
call.  Returns whether it succeeded (per the oracle) and the attempt event. -/
def BindMount (env : Env) (source mount_point : String) (recursive : Bool := false) :
    Bool × List Event :=
  (env.bindOk source mount_point,
   [Event.mountCall source mount_point ""
      (if recursive then ["MS_BIND", "MS_REC"] else ["MS_BIND"])])

/-- The loop of `BindMountBionic` over `kBionicLibFileNames`: bind-mount each
`lib_dir_source + name` onto `lib_mount_dir + name`, stopping at the first
failure. -/
def bindLibsLoop (env : Env) (lib_dir_source lib_mount_dir : String) :
    List String → Bool × List Event
  | [] => (true, [])
  | libname :: rest =>
    let mount_point := lib_mount_dir ++ libname
    let source := lib_dir_source ++ libname
    let r := BindMount env source mount_point
    if r.1 then
      let r2 := bindLibsLoop env lib_dir_source lib_mount_dir rest
      (r2.1, r.2 ++ r2.2)
    else (false, r.2)

/-- `BindMountBionic`: if the linker source does not exist, skip the variant
and report success with no mount attempted; otherwise bind-mount the linker
first, then each library in `kBionicLibFileNames`. -/
def BindMountBionic (env : Env) (linker_source lib_dir_source linker_mount_point
    lib_mount_dir : String) : Bool × List Event :=
  if env.pathExists linker_source then
    let r := BindMount env linker_source linker_mount_point
    if r.1 then
      let r2 := bindLibsLoop env lib_dir_source lib_mount_dir kBionicLibFileNames
      (r2.1, r.2 ++ r2.2)
    else (false, r.2)
  else (true, [])

/-- `ActivateApexPackages`: scan-and-activate the system APEX dir, then return
the active packages (their paths, via `ApexFile::GetPath`). -/
def ActivateApexPackages (env : Env) : List String × List Event :=
  (env.activePackages, [Event.scanActivate kApexPackageSystemDir])

/-- `DeactivateApexPackages`: attempt deactivation of every package in the
set, in order; individual failures are only logged. -/
def DeactivateApexPackages (active_packages : List String) : List Event :=
  active_packages.map Event.deactivate

/-- The loop over `kBindMounts`: bind-mount each host dir onto
`/postinstall<dir>`, exiting fatally at the first failure. -/
def coreBindLoop (env : Env) : List String → Bool × List Event
  | [] => (true, [])
  | d :: rest =>
    let trg := "/postinstall" ++ d
    let ev := Event.mountCall d trg "" ["MS_BIND"]
    if env.bindOk d trg then
      let r := coreBindLoop env rest
      (r.1, ev :: r.2)
    else (false, [ev])

/-- The loop building the outgoing command vector: `/system/bin/otapreopt`
followed by `arg[i]` for `i` from `2` to `argc - 1`. -/
def cmdArgsFrom (i argc : Nat) (args : List String) : List String :=
  if h : i < argc then args.getD i "" :: cmdArgsFrom (i + 1) argc args
  else []
  termination_by argc - i

/-- The argument vector passed to `Exec`. -/
def buildCmd (argc : Nat) (args : List String) : List String :=
  "/system/bin/otapreopt" :: cmdArgsFrom 2 argc args

/-- The distinct fatal-termination points of `otapreopt_chroot`. -/
inductive FailureSite where
  | notEnoughArgs
  | unshareFail
  | privateMountFail
  | coreBindFail
  | invalidSlot
  | tmpfsFail
  | restoreconFail
  | chmodFail
  | chownFail
  | chdirPostinstallFail
  | chrootFail
  | chdirRootFail
  | bionic32Fail
  | bionic64Fail
  | execFail
  deriving DecidableEq, Repr, Fintype

/-- The exit code used by the source at each fatal termination point. -/
def exitCode : FailureSite → Nat
  | .notEnoughArgs => 208
  | .unshareFail => 200
  | .privateMountFail => 201
  | .coreBindFail => 202
  | .invalidSlot => 207
  | .tmpfsFail => 209
  | .restoreconFail => 214
  | .chmodFail => 210
  | .chownFail => 211
  | .chdirPostinstallFail => 203
  | .chrootFail => 204
  | .chdirRootFail => 205
  | .bionic32Fail => 215
  | .bionic64Fail => 216
  | .execFail => 213

/-- The initial descriptor-closing block of `otapreopt_chroot`: the three
standard streams, then the status-channel descriptor string `arg[1]`. -/
def initialCloses (args : List String) : List Event :=
  CloseDescriptorInt 0 ++ CloseDescriptorInt 1 ++ CloseDescriptorInt 2
    ++ CloseDescriptorStr (args.getD 1 "")

/-- Tail of `otapreopt_chroot` from APEX activation onward: the 32-bit and
64-bit `BindMountBionic` calls, `Exec`, and the `DeactivateApexPackages`
teardown performed on each of those paths.  Returns the exit status and the
events of this tail only (the caller prepends the earlier trace). -/
def afterActivation (argc : Nat) (args : List String) (env : Env)
    (active_packages : List String) : Nat × List Event :=
  let b32 := BindMountBionic env kRuntimeLinkerPath kRuntimeBionicLibsDir
    kLinkerMountPoint kBionicLibsMountPointDir
  if b32.1 then
    let b64 := BindMountBionic env kRuntimeLinkerPath64 kRuntimeBionicLibsDir64
      kLinkerMountPoint64 kBionicLibsMountPointDir64
    if b64.1 then
      -- Fork and execute otapreopt, then tear down the apexd work.
      let cmd := buildCmd argc args
      let t := b32.2 ++ b64.2 ++ [Event.execCall cmd]
        ++ DeactivateApexPackages active_packages
      if env.execOk then (0, t) else (exitCode .execFail, t)
    else (exitCode .bionic64Fail, b32.2 ++ b64.2 ++ DeactivateApexPackages active_packages)
  else (exitCode .bionic32Fail, b32.2 ++ DeactivateApexPackages active_packages)

/-- The staging-root finalizer and everything after it: tmpfs mount of
`/postinstall/apex`, restorecon, chmod, chown, chdir into `/postinstall`,
chroot, chdir to `/`, then APEX activation and `afterActivation`.
Returns the events of this part only. -/
def stagingStage (argc : Nat) (args : List String) (env : Env) : Nat × List Event :=
  let t := [Event.mountCall "tmpfs" "/postinstall/apex" "tmpfs"
    ["MS_NODEV", "MS_NOEXEC", "MS_NOSUID"]]
  if env.tmpfsOk then
    let t := t ++ [Event.restorecon "/postinstall/apex"]
    if env.restoreconOk then
      let t := t ++ [Event.chmodCall "/postinstall/apex" 0o755]
      if env.chmodOk then
        let t := t ++ [Event.chownCall "/postinstall/apex" 0 0]
        if env.chownOk then
          let t := t ++ [Event.chdirCall "/postinstall"]
          if env.chdirPostinstallOk then
            let t := t ++ [Event.chrootCall "."]
            if env.chrootOk then
              let t := t ++ [Event.chdirCall "/"]
              if env.chdirRootOk then
                let act := ActivateApexPackages env
                let r := afterActivation argc args env act.1
                (r.1, t ++ act.2 ++ r.2)
              else (exitCode .chdirRootFail, t)
            else (exitCode .chrootFail, t)
          else (exitCode .chdirPostinstallFail, t)
        else (exitCode .chownFail, t)
      else (exitCode .chmodFail, t)
    else (exitCode .restoreconFail, t)
  else (exitCode .tmpfsFail, t)

/-- Slot-suffix validation, the two best-effort partition mounts (results
UNUSED in the source), and everything after them.  No partition path is
constructed unless `ValidateTargetSlotSuffix(arg[2])` holds. -/
def partitionStage (argc : Nat) (args : List String) (env : Env) : Nat × List Event :=
  if env.validSlot (args.getD 2 "") then
    let t := [Event.mountCall ("/dev/block/by-name/vendor" ++ args.getD 2 "")
        "/postinstall/vendor" "ext4" ["MS_RDONLY"],
      Event.mountCall ("/dev/block/by-name/product" ++ args.getD 2 "")
        "/postinstall/product" "ext4" ["MS_RDONLY"]]
    let r := stagingStage argc args env
    (r.1, t ++ r.2)
  else (exitCode .invalidSlot, [])

/-- The core bind-mount loop over `kBindMounts` and everything after it. -/
def coreMountStage (argc : Nat) (args : List String) (env : Env) : Nat × List Event :=
  let core := coreBindLoop env kBindMounts
  if core.1 then
    let r := partitionStage argc args env
    (r.1, core.2 ++ r.2)
  else (exitCode .coreBindFail, core.2)

/-- `otapreopt_chroot(argc, arg)`: returns the process exit status together
with the trace of attempted operations, following the source line by line.
`args` is the argument vector (`args.getD i ""` models `arg[i]`). -/
def otapreopt_chroot (argc : Nat) (args : List String) (env : Env) :
    Nat × List Event :=
  if argc < 3 then (exitCode .notEnoughArgs, [])
  else
    -- Close default descriptors and the status channel, then unshare.
    let t := initialCloses args ++ [Event.unshare]
    if env.unshareOk then
      -- Make postinstall private.
      let t := t ++ [Event.mountCall "" "/postinstall" "" ["MS_PRIVATE"]]
      if env.privateMountOk then
        let r := coreMountStage argc args env
        (r.1, t ++ r.2)
      else (exitCode .privateMountFail, t)
    else (exitCode .unshareFail, t)

/- Event discriminators used to state trace properties. -/

/-- Is this a deactivation of a runtime component? -/
def Event.isDeactivate : Event → Bool
  | .deactivate _ => true
  | _ => false

/-- Is this a `closeFd` event? -/
def Event.isCloseFd : Event → Bool
  | .closeFd _ => true
  | _ => false

/-- Is this the `unshare(CLONE_NEWNS)` call? -/
def Event.isUnshare : Event → Bool
  | .unshare => true
  | _ => false

/-- Is this the `MS_PRIVATE` marking of `/postinstall`? -/
def Event.isPrivateMount (e : Event) : Bool :=
  decide (e = Event.mountCall "" "/postinstall" "" ["MS_PRIVATE"])

/-- Is this one of the four core directory bind-mounts (source in
`kBindMounts`)? -/
def Event.isCoreBind : Event → Bool
  | .mountCall src _ _ _ => decide (src ∈ kBindMounts)
  | _ => false

/-- Is this a vendor or product partition mount (target
`/postinstall/vendor` or `/postinstall/product`)? -/
def Event.isPartitionMount : Event → Bool
  | .mountCall _ tgt _ _ => tgt = "/postinstall/vendor" || tgt = "/postinstall/product"
  | _ => false

/-- Is this the tmpfs mount of the APEX metadata mount point? -/
def Event.isTmpfsMount : Event → Bool
  | .mountCall src _ _ _ => src = "tmpfs"
  | _ => false

/-- Is this a restorecon call? -/
def Event.isRestorecon : Event → Bool
  | .restorecon _ => true
  | _ => false

/-- Is this a chmod call? -/
def Event.isChmod : Event → Bool
  | .chmodCall _ _ => true
  | _ => false

/-- Is this a chown call? -/
def Event.isChown : Event → Bool
  | .chownCall _ _ _ => true
  | _ => false

/-- Is this a chdir call? -/
def Event.isChdir : Event → Bool
  | .chdirCall _ => true
  | _ => false

/-- Is this the chroot call? -/
def Event.isChroot : Event → Bool
  | .chrootCall _ => true
  | _ => false

/-- Is this the APEX scan-and-activate call? -/
def Event.isScanActivate : Event → Bool
  | .scanActivate _ => true
  | _ => false

/-- Is this a Bionic artifact bind-mount (target under `/bionic`)? -/
def Event.isBionicBind : Event → Bool
  | .mountCall _ tgt _ _ => decide (tgt.data.take 7 = "/bionic".data)
  | _ => false

/-- Is this the sub-process execution? -/
def Event.isExecStep : Event → Bool
  | .execCall _ => true
  | _ => false

/-- Does this event belong to any step after the core directory bind-mounts
(partition mounts, staging-root finalization, activation, Bionic mounts,
sub-process execution, deactivation)? -/
def Event.isLaterStep (e : Event) : Bool :=
  e.isPartitionMount || e.isTmpfsMount || e.isRestorecon || e.isChmod || e.isChown
    || e.isChdir || e.isChroot || e.isScanActivate || e.isBionicBind
    || e.isExecStep || e.isDeactivate

/-- In trace `l`, every event satisfying `q` is preceded (strictly earlier in
the list) by some event satisfying `p`. -/
def precedes (p q : Event → Bool) (l : List Event) : Prop :=
  ∀ l1 e l2, l = l1 ++ e :: l2 → q e = true → ∃ x ∈ l1, p x = true

/-- The full trace of the steps up to and including the APEX
scan-and-activate call, on the path where they all succeed. -/
def preActivationTrace (args : List String) : List Event :=
  initialCloses args
    ++ [Event.unshare, Event.mountCall "" "/postinstall" "" ["MS_PRIVATE"]]
    ++ kBindMounts.map (fun d => Event.mountCall d ("/postinstall" ++ d) "" ["MS_BIND"])
    ++ [Event.mountCall ("/dev/block/by-name/vendor" ++ args.getD 2 "")
          "/postinstall/vendor" "ext4" ["MS_RDONLY"],
        Event.mountCall ("/dev/block/by-name/product" ++ args.getD 2 "")
          "/postinstall/product" "ext4" ["MS_RDONLY"],
        Event.mountCall "tmpfs" "/postinstall/apex" "tmpfs"
          ["MS_NODEV", "MS_NOEXEC", "MS_NOSUID"],
        Event.restorecon "/postinstall/apex",
        Event.chmodCall "/postinstall/apex" 0o755,
        Event.chownCall "/postinstall/apex" 0 0,
        Event.chdirCall "/postinstall",
        Event.chrootCall ".",
        Event.chdirCall "/",
        Event.scanActivate kApexPackageSystemDir]

/- Helper lemmas about the event lists produced by the building blocks. -/

lemma closeDescriptorInt_events (fd : Int) :
    ∀ e ∈ CloseDescriptorInt fd, ∃ n, e = Event.closeFd n := by
  intro e he
  unfold CloseDescriptorInt at he
  split at he <;> simp at he
  exact ⟨fd, he⟩

lemma closeDescriptorStr_events (s : String) :
    ∀ e ∈ CloseDescriptorStr s, ∃ n, e = Event.closeFd n := by
  intro e he
  unfold CloseDescriptorStr at he
  split at he
  · simp at he
  · exact closeDescriptorInt_events _ e he

lemma initialCloses_events (args : List String) :
    ∀ e ∈ initialCloses args, ∃ n, e = Event.closeFd n := by
  intro e he
  unfold initialCloses at he
  simp only [List.mem_append] at he
  rcases he with ((h | h) | h) | h
  · exact closeDescriptorInt_events _ e h
  · exact closeDescriptorInt_events _ e h
  · exact closeDescriptorInt_events _ e h
  · exact closeDescriptorStr_events _ e h

lemma coreBindLoop_events (env : Env) :
    ∀ l, ∀ e ∈ (coreBindLoop env l).2,
      ∃ d ∈ l, e = Event.mountCall d ("/postinstall" ++ d) "" ["MS_BIND"] := by
  intro l
  induction l with
  | nil => intro e he; simp [coreBindLoop] at he
  | cons d rest ih =>
    intro e he
    simp only [coreBindLoop] at he
    by_cases hb : env.bindOk d ("/postinstall" ++ d) = true
    · rw [if_pos hb] at he
      simp only [List.mem_cons] at he
      rcases he with h | h
      · exact ⟨d, by simp, h⟩
      · obtain ⟨d', hd', he'⟩ := ih e h
        exact ⟨d', by simp [hd'], he'⟩
    · rw [if_neg hb] at he
      simp only [List.mem_singleton] at he
      exact ⟨d, by simp, he⟩

lemma coreBindLoop_all_ok (env : Env) (l : List String)
    (h : ∀ d ∈ l, env.bindOk d ("/postinstall" ++ d) = true) :
    coreBindLoop env l
      = (true, l.map fun d => Event.mountCall d ("/postinstall" ++ d) "" ["MS_BIND"]) := by
  induction l with
  | nil => rfl
  | cons d rest ih =>
    have hd : env.bindOk d ("/postinstall" ++ d) = true := h d (by simp)
    have hrest : ∀ d' ∈ rest, env.bindOk d' ("/postinstall" ++ d') = true :=
      fun d' hd' => h d' (by simp [hd'])
    unfold coreBindLoop
    simp [hd, ih hrest]

lemma bindLibsLoop_events (env : Env) (lds lmd : String) :
    ∀ l, ∀ e ∈ (bindLibsLoop env lds lmd l).2,
      ∃ n ∈ l, e = Event.mountCall (lds ++ n) (lmd ++ n) "" ["MS_BIND"] := by
  intro l
  induction l with
  | nil => intro e he; simp [bindLibsLoop] at he
  | cons n rest ih =>
    intro e he
    simp only [bindLibsLoop, BindMount] at he
    by_cases hb : env.bindOk (lds ++ n) (lmd ++ n) = true
    · rw [if_pos hb] at he
      simp only [List.cons_append, List.nil_append, List.mem_cons] at he
      rcases he with h | h
      · exact ⟨n, by simp, h⟩
      · obtain ⟨n', hn', he'⟩ := ih e h
        exact ⟨n', by simp [hn'], he'⟩
    · rw [if_neg hb] at he
      simp only [List.mem_singleton] at he
      exact ⟨n, by simp, he⟩

lemma bindLibsLoop_all_ok (env : Env) (lds lmd : String) (l : List String)
    (h : ∀ n ∈ l, env.bindOk (lds ++ n) (lmd ++ n) = true) :
    bindLibsLoop env lds lmd l
      = (true, l.map fun n => Event.mountCall (lds ++ n) (lmd ++ n) "" ["MS_BIND"]) := by
  induction l with
  | nil => rfl
  | cons n rest ih =>
    have hn : env.bindOk (lds ++ n) (lmd ++ n) = true := h n (by simp)
    have hrest : ∀ n' ∈ rest, env.bindOk (lds ++ n') (lmd ++ n') = true :=
      fun n' hn' => h n' (by simp [hn'])
    unfold bindLibsLoop
    simp [BindMount, hn, ih hrest]

lemma bindMountBionic_events (env : Env) (ls lds lmp lmd : String) :
    ∀ e ∈ (BindMountBionic env ls lds lmp lmd).2,
      ∃ s t, e = Event.mountCall s t "" ["MS_BIND"] := by
  intro e he
  simp only [BindMountBionic, BindMount] at he
  by_cases hx : env.pathExists ls = true
  · rw [if_pos hx] at he
    by_cases hb : env.bindOk ls lmp = true
    · rw [if_pos hb] at he
      simp only [List.cons_append, List.nil_append, List.mem_cons] at he
      rcases he with h | h
      · exact ⟨ls, lmp, h⟩
      · obtain ⟨n, _, he'⟩ := bindLibsLoop_events env lds lmd _ e h
        exact ⟨lds ++ n, lmd ++ n, he'⟩
    · rw [if_neg hb] at he
      simp only [List.mem_singleton] at he
      exact ⟨ls, lmp, he⟩
  · rw [if_neg hx] at he
    simp at he

lemma filter_deactivate_map (l : List String) :
    (l.map Event.deactivate).filter Event.isDeactivate = l.map Event.deactivate := by
  rw [List.filter_eq_self]
  intro e he
  obtain ⟨p, _, rfl⟩ := List.mem_map.mp he
  rfl

lemma bindMountBionic_filter_deactivate (env : Env) (ls lds lmp lmd : String) :
    ((BindMountBionic env ls lds lmp lmd).2).filter Event.isDeactivate = [] := by
  rw [List.filter_eq_nil_iff]
  intro e he
  obtain ⟨s, t, rfl⟩ := bindMountBionic_events env ls lds lmp lmd e he
  simp [Event.isDeactivate]

/-- On every path of the post-activation tail, the deactivation events are
exactly one per activated package, in order. -/
lemma afterActivation_filter_deactivate (argc : Nat) (args : List String) (env : Env)
    (active : List String) :
    ((afterActivation argc args env active).2).filter Event.isDeactivate
      = active.map Event.deactivate := by
  simp only [afterActivation, DeactivateApexPackages]
  split
  · split
    · split <;>
        simp [List.filter_append, bindMountBionic_filter_deactivate,
          filter_deactivate_map, Event.isDeactivate]
    · simp [List.filter_append, bindMountBionic_filter_deactivate,
        filter_deactivate_map]
  · simp [List.filter_append, bindMountBionic_filter_deactivate,
      filter_deactivate_map]

lemma initialCloses_not_deactivate (args : List String) :
    ∀ e ∈ initialCloses args, Event.isDeactivate e = false := by
  intro e he
  obtain ⟨n, rfl⟩ := initialCloses_events args e he
  rfl

lemma preActivationTrace_no_deactivate (args : List String) :
    (preActivationTrace args).filter Event.isDeactivate = [] := by
  rw [List.filter_eq_nil_iff]
  intro e he
  simp only [preActivationTrace, List.append_assoc, List.mem_append] at he
  rcases he with h | h | h | h
  · simp [initialCloses_not_deactivate args e h]
  · simp only [List.mem_cons, List.not_mem_nil, or_false] at h
    rcases h with rfl | rfl <;> simp [Event.isDeactivate]
  · obtain ⟨d, _, rfl⟩ := List.mem_map.mp h
    simp [Event.isDeactivate]
  · simp only [List.mem_cons, List.not_mem_nil, or_false] at h
    rcases h with rfl | rfl | rfl | rfl | rfl | rfl | rfl | rfl | rfl | rfl <;>
      simp [Event.isDeactivate]

/-- Under hypotheses that every step before APEX activation succeeds, the
whole run is the pre-activation trace followed by the post-activation tail,
whose outcome decides the exit status. -/
lemma run_reaches_activation (argc : Nat) (args : List String) (env : Env)
    (hargc : 3 ≤ argc) (hu : env.unshareOk = true) (hpm : env.privateMountOk = true)
    (hcore : ∀ d ∈ kBindMounts, env.bindOk d ("/postinstall" ++ d) = true)
    (hslot : env.validSlot (args.getD 2 "") = true)
    (htmp : env.tmpfsOk = true) (hre : env.restoreconOk = true)
    (hcm : env.chmodOk = true) (hco : env.chownOk = true)
    (hcd : env.chdirPostinstallOk = true) (hcr : env.chrootOk = true)
    (hcd2 : env.chdirRootOk = true) :
    otapreopt_chroot argc args env
      = ((afterActivation argc args env env.activePackages).1,
          preActivationTrace args
            ++ (afterActivation argc args env env.activePackages).2) := by
  have hlt : ¬ argc < 3 := by omega
  simp only [otapreopt_chroot, coreMountStage, partitionStage, stagingStage,
    ActivateApexPackages, coreBindLoop_all_ok env kBindMounts hcore,
    preActivationTrace, hu, hpm, hslot, htmp, hre, hcm, hco, hcd, hcr, hcd2, hlt,
    if_true, if_false, ite_true, ite_false]
  simp [List.append_assoc]

/- Helper lemmas about `precedes`. -/

lemma precedes_of_no_q (p q : Event → Bool) (l : List Event)
    (h : ∀ e ∈ l, q e = false) : precedes p q l := by
  intro l1 e l2 hl hq
  exfalso
  have he : e ∈ l := by rw [hl]; simp
  rw [h e he] at hq
  cases hq

lemma precedes_append (p q : Event → Bool) (A B : List Event)
    (hA : ∀ e ∈ A, q e = false) (hp : ∃ x ∈ A, p x = true) :
    precedes p q (A ++ B) := by
  intro l1 e l2 hl hq
  rcases List.append_eq_append_iff.mp hl with ⟨a', h1, _⟩ | ⟨c', h1, h2⟩
  · obtain ⟨x, hx, hpx⟩ := hp
    exact ⟨x, by rw [h1]; exact List.mem_append_left _ hx, hpx⟩
  · cases c' with
    | nil =>
      obtain ⟨x, hx, hpx⟩ := hp
      refine ⟨x, ?_, hpx⟩
      rw [List.append_nil] at h1
      rw [← h1]
      exact hx
    | cons y ys =>
      exfalso
      simp only [List.cons_append] at h2
      injection h2 with h2a _
      have hyA : y ∈ A := by rw [h1]; simp
      rw [h2a, hA y hyA] at hq
      cases hq

lemma prefix_events_not_coreBind (args : List String) :
    ∀ e ∈ (initialCloses args ++ [Event.unshare])
        ++ [Event.mountCall "" "/postinstall" "" ["MS_PRIVATE"]],
      Event.isCoreBind e = false := by
  intro e he
  simp only [List.append_assoc, List.mem_append, List.mem_cons, List.not_mem_nil,
    or_false] at he
  rcases he with h | rfl | rfl
  · obtain ⟨n, rfl⟩ := initialCloses_events args e h
    rfl
  · rfl
  · decide

/-- Whichever of `unshare` and the private-marking is taken as `p`: in every
run, every core directory bind-mount is preceded by a `p`-event. -/
lemma isolation_precedes_coreBind (argc : Nat) (args : List String) (env : Env)
    (p : Event → Bool)
    (hp : p Event.unshare = true
      ∨ p (Event.mountCall "" "/postinstall" "" ["MS_PRIVATE"]) = true) :
    precedes p Event.isCoreBind (otapreopt_chroot argc args env).2 := by
  by_cases h3 : argc < 3
  · simp only [otapreopt_chroot, h3, if_true, ite_true]
    exact precedes_of_no_q _ _ [] (by simp)
  · by_cases hus : env.unshareOk = true
    · by_cases hpm : env.privateMountOk = true
      · simp only [otapreopt_chroot, h3, hus, hpm, if_true, if_false, ite_true,
          ite_false]
        apply precedes_append
        · exact prefix_events_not_coreBind args
        · rcases hp with h | h
          · exact ⟨Event.unshare, by simp, h⟩
          · exact ⟨Event.mountCall "" "/postinstall" "" ["MS_PRIVATE"], by simp, h⟩
      · rw [Bool.not_eq_true] at hpm
        simp only [otapreopt_chroot, h3, hus, hpm, if_true, if_false, ite_true,
          ite_false, Bool.false_eq_true]
        exact precedes_of_no_q _ _ _ (prefix_events_not_coreBind args)
    · rw [Bool.not_eq_true] at hus
      simp only [otapreopt_chroot, h3, hus, if_true, if_false, ite_true, ite_false,
        Bool.false_eq_true]
      apply precedes_of_no_q
      intro e he
      exact prefix_events_not_coreBind args e (List.mem_append_left _ he)

/- Concrete instantiations used by the witnesses. -/

/-- An environment in which every external call succeeds. -/
def envAllOk : Env where
  unshareOk := true
  privateMountOk := true
  bindOk := fun _ _ => true
  validSlot := fun _ => true
  tmpfsOk := true
  restoreconOk := true
  chmodOk := true
  chownOk := true
  chdirPostinstallOk := true
  chrootOk := true
  chdirRootOk := true
  pathExists := fun _ => true
  activePackages := ["/system/apex/com.android.runtime.apex"]
  execOk := true

/-- Like `envAllOk` but `Exec` of the sub-process fails. -/
def envExecFail : Env :=
  { envAllOk with execOk := false }

/-- A sample well-formed argument vector:
program name, status descriptor, slot suffix, sub-command. -/
def argsEx : List String := ["otapreopt_chroot", "17", "_b", "dexopt"]

/-- C1: after APEX activation is attempted (all earlier steps succeeded),
deactivation is invoked exactly once for every record of the activated set on
every later exit path — 32-bit Bionic failure, 64-bit Bionic failure,
sub-process failure and success alike (no hypothesis is made on those
outcomes): the deactivation events of the run are exactly one per activated
package, in order. -/
theorem apex_deactivation_exactly_once (argc : Nat) (args : List String) (env : Env)
    (hargc : 3 ≤ argc) (hu : env.unshareOk = true) (hpm : env.privateMountOk = true)
    (hcore : ∀ d ∈ kBindMounts, env.bindOk d ("/postinstall" ++ d) = true)
    (hslot : env.validSlot (args.getD 2 "") = true)
    (htmp : env.tmpfsOk = true) (hre : env.restoreconOk = true)
    (hcm : env.chmodOk = true) (hco : env.chownOk = true)
    (hcd : env.chdirPostinstallOk = true) (hcr : env.chrootOk = true)
    (hcd2 : env.chdirRootOk = true) :
    ((otapreopt_chroot argc args env).2).filter Event.isDeactivate
      = env.activePackages.map Event.deactivate := by
  rw [run_reaches_activation argc args env hargc hu hpm hcore hslot htmp hre hcm
    hco hcd hcr hcd2]
  simp only [List.filter_append, preActivationTrace_no_deactivate,
    afterActivation_filter_deactivate, List.nil_append]

/-- Witness for C1 at a concrete invocation. -/
theorem apex_deactivation_exactly_once_w :
    ((otapreopt_chroot 4 argsEx envAllOk).2).filter Event.isDeactivate
      = envAllOk.activePackages.map Event.deactivate :=
  apex_deactivation_exactly_once 4 argsEx envAllOk (by decide) rfl rfl
    (fun _ _ => rfl) rfl rfl rfl rfl rfl rfl rfl rfl

/-- C4: no two distinct fatal termination points of the program share an exit
code — over the list of all fifteen failure sites the codes are pairwise
distinct — and every fatal code is distinct from the success code 0. -/
theorem exit_codes_pairwise_distinct :
    (([.notEnoughArgs, .unshareFail, .privateMountFail, .coreBindFail,
       .invalidSlot, .tmpfsFail, .restoreconFail, .chmodFail, .chownFail,
       .chdirPostinstallFail, .chrootFail, .chdirRootFail, .bionic32Fail,
       .bionic64Fail, .execFail] : List FailureSite).map exitCode).Nodup ∧
    (∀ s : FailureSite, exitCode s ≠ 0) := by
  decide

/-- C8: with fewer than 3 arguments the program terminates with the
insufficient-arguments code and an empty trace: no mount operation, no
descriptor close and no namespace change happened before termination. -/
theorem too_few_args_exit (argc : Nat) (args : List String) (env : Env)
    (h : argc < 3) :
    otapreopt_chroot argc args env = (exitCode .notEnoughArgs, []) := by
  simp [otapreopt_chroot, h]

/-- Witness for C8 at a concrete two-argument invocation. -/
theorem too_few_args_exit_w :
    otapreopt_chroot 2 ["otapreopt_chroot", "17"] envAllOk
      = (exitCode .notEnoughArgs, []) :=
  too_few_args_exit 2 ["otapreopt_chroot", "17"] envAllOk (by decide)

lemma cmdArgsFrom_eq_drop (args : List String) (i : Nat) :
    cmdArgsFrom i args.length args = args.drop i := by
  have H : ∀ k j, args.length - j ≤ k → cmdArgsFrom j args.length args = args.drop j := by
    intro k
    induction k with
    | zero =>
      intro j hj
      rw [cmdArgsFrom]
      have hnot : ¬ j < args.length := by omega
      rw [dif_neg hnot]
      exact (List.drop_eq_nil_of_le (by omega)).symm
    | succ k ih =>
      intro j hj
      rw [cmdArgsFrom]
      by_cases h : j < args.length
      · rw [dif_pos h, ih (j + 1) (by omega), List.drop_eq_getElem_cons h]
        congr 1
        rw [List.getD_eq_getElem?_getD, List.getElem?_eq_getElem h]
        rfl
      · rw [dif_neg h]
        exact (List.drop_eq_nil_of_le (by omega)).symm
  exact H (args.length - i) i le_rfl

/-- C9: the argument vector handed to `Exec` is the fixed target binary path
followed by exactly the caller-supplied arguments from index 2 on (everything
but the program name and the status descriptor), unchanged and in order, so
its length is `argc - 1`. -/
theorem forwarded_cmd_vector (argc : Nat) (args : List String)
    (hlen : args.length = argc) (hargc : 3 ≤ argc) :
    buildCmd argc args = "/system/bin/otapreopt" :: args.drop 2 ∧
    (buildCmd argc args).length = argc - 1 := by
  subst hlen
  refine ⟨?_, ?_⟩
  · rw [buildCmd, cmdArgsFrom_eq_drop]
  · rw [buildCmd, cmdArgsFrom_eq_drop]
    simp only [List.length_cons, List.length_drop]
    omega

/-- Witness for C9 at a concrete four-argument invocation. -/
theorem forwarded_cmd_vector_w :
    buildCmd 4 argsEx = "/system/bin/otapreopt" :: argsEx.drop 2 ∧
    (buildCmd 4 argsEx).length = 4 - 1 :=
  forwarded_cmd_vector 4 argsEx (by decide) (by decide)

/-- C10: the string-argument descriptor closer is total and never fatal: a
string that does not parse as an `int` (or parses negative) closes nothing,
and a string parsing to a non-negative `n` closes exactly descriptor `n`
once, discarding the result. -/
theorem close_descriptor_string_cases (s : String) :
    (parseIntStream s = none → CloseDescriptorStr s = []) ∧
    (∀ n : Int, parseIntStream s = some n → n < 0 → CloseDescriptorStr s = []) ∧
    (∀ n : Int, parseIntStream s = some n → 0 ≤ n →
      CloseDescriptorStr s = [Event.closeFd n]) := by
  refine ⟨?_, ?_, ?_⟩
  · intro h
    simp [CloseDescriptorStr, h]
  · intro n h hn
    simp [CloseDescriptorStr, h, CloseDescriptorInt, not_le.mpr hn]
  · intro n h hn
    simp [CloseDescriptorStr, h, CloseDescriptorInt, hn]

/-- Witness for C10: "17" parses to 17 and closes exactly descriptor 17. -/
theorem close_descriptor_string_cases_w :
    CloseDescriptorStr "17" = [Event.closeFd 17] :=
  (close_descriptor_string_cases "17").2.2 17 (by decide) (by decide)

/-- C7: per address-width variant of the Bionic mounter: an absent linker
source means no bind-mount at all for the variant and a success result;
a present linker source means the linker is bind-mounted first, and when all
binds succeed the trailing mounts are exactly the fixed library list, mounted
from the source dir onto the mount-point dir, in order. -/
theorem bionic_mounter_skip_or_ordered (env : Env) (ls lds lmp lmd : String) :
    (env.pathExists ls = false → BindMountBionic env ls lds lmp lmd = (true, [])) ∧
    (env.pathExists ls = true →
      (∃ rest, (BindMountBionic env ls lds lmp lmd).2
          = Event.mountCall ls lmp "" ["MS_BIND"] :: rest) ∧
      (env.bindOk ls lmp = true →
        (∀ n ∈ kBionicLibFileNames, env.bindOk (lds ++ n) (lmd ++ n) = true) →
        BindMountBionic env ls lds lmp lmd
          = (true, Event.mountCall ls lmp "" ["MS_BIND"]
              :: kBionicLibFileNames.map
                  fun n => Event.mountCall (lds ++ n) (lmd ++ n) "" ["MS_BIND"]))) := by
  constructor
  · intro h
    simp [BindMountBionic, h]
  · intro h
    constructor
    · by_cases hb : env.bindOk ls lmp = true
      · exact ⟨(bindLibsLoop env lds lmd kBionicLibFileNames).2,
          by simp [BindMountBionic, BindMount, h, hb]⟩
      · exact ⟨[], by simp [BindMountBionic, BindMount, h, hb]⟩
    · intro hb hall
      simp [BindMountBionic, BindMount, h, hb,
        bindLibsLoop_all_ok env lds lmd _ hall]

/-- Witness for C7: the 32-bit variant with every call succeeding mounts the
linker and then the three libraries, in order. -/
theorem bionic_mounter_skip_or_ordered_w :
    BindMountBionic envAllOk kRuntimeLinkerPath kRuntimeBionicLibsDir
        kLinkerMountPoint kBionicLibsMountPointDir
      = (true, Event.mountCall kRuntimeLinkerPath kLinkerMountPoint "" ["MS_BIND"]
          :: kBionicLibFileNames.map fun n =>
              Event.mountCall (kRuntimeBionicLibsDir ++ n)
                (kBionicLibsMountPointDir ++ n) "" ["MS_BIND"]) :=
  ((bionic_mounter_skip_or_ordered envAllOk kRuntimeLinkerPath kRuntimeBionicLibsDir
      kLinkerMountPoint kBionicLibsMountPointDir).2 rfl).2 rfl (fun _ _ => rfl)

/-- C3: the staging-root finalizer runs tmpfs mount, restorecon, chmod,
chown, chdir into the staging root, chroot, chdir to the new root, in exactly
that order (the relabel after the mount and before chmod and chown); each
sub-step is independently fatal with seven pairwise-distinct exit codes. -/
theorem staging_finalizer_order (argc : Nat) (args : List String) (env : Env) :
    ([exitCode .tmpfsFail, exitCode .restoreconFail, exitCode .chmodFail,
      exitCode .chownFail, exitCode .chdirPostinstallFail, exitCode .chrootFail,
      exitCode .chdirRootFail].Pairwise (· ≠ ·)) ∧
    (env.tmpfsOk = false →
      stagingStage argc args env = (exitCode .tmpfsFail,
        [Event.mountCall "tmpfs" "/postinstall/apex" "tmpfs"
          ["MS_NODEV", "MS_NOEXEC", "MS_NOSUID"]])) ∧
    (env.tmpfsOk = true → env.restoreconOk = false →
      stagingStage argc args env = (exitCode .restoreconFail,
        [Event.mountCall "tmpfs" "/postinstall/apex" "tmpfs"
          ["MS_NODEV", "MS_NOEXEC", "MS_NOSUID"],
         Event.restorecon "/postinstall/apex"])) ∧
    (env.tmpfsOk = true → env.restoreconOk = true → env.chmodOk = false →
      stagingStage argc args env = (exitCode .chmodFail,
        [Event.mountCall "tmpfs" "/postinstall/apex" "tmpfs"
          ["MS_NODEV", "MS_NOEXEC", "MS_NOSUID"],
         Event.restorecon "/postinstall/apex",
         Event.chmodCall "/postinstall/apex" 0o755])) ∧
    (env.tmpfsOk = true → env.restoreconOk = true → env.chmodOk = true →
     env.chownOk = false →
      stagingStage argc args env = (exitCode .chownFail,
        [Event.mountCall "tmpfs" "/postinstall/apex" "tmpfs"
          ["MS_NODEV", "MS_NOEXEC", "MS_NOSUID"],
         Event.restorecon "/postinstall/apex",
         Event.chmodCall "/postinstall/apex" 0o755,
         Event.chownCall "/postinstall/apex" 0 0])) ∧
    (env.tmpfsOk = true → env.restoreconOk = true → env.chmodOk = true →
     env.chownOk = true → env.chdirPostinstallOk = false →
      stagingStage argc args env = (exitCode .chdirPostinstallFail,
        [Event.mountCall "tmpfs" "/postinstall/apex" "tmpfs"
          ["MS_NODEV", "MS_NOEXEC", "MS_NOSUID"],
         Event.restorecon "/postinstall/apex",
         Event.chmodCall "/postinstall/apex" 0o755,
         Event.chownCall "/postinstall/apex" 0 0,
         Event.chdirCall "/postinstall"])) ∧
    (env.tmpfsOk = true → env.restoreconOk = true → env.chmodOk = true →
     env.chownOk = true → env.chdirPostinstallOk = true → env.chrootOk = false →
      stagingStage argc args env = (exitCode .chrootFail,
        [Event.mountCall "tmpfs" "/postinstall/apex" "tmpfs"
          ["MS_NODEV", "MS_NOEXEC", "MS_NOSUID"],
         Event.restorecon "/postinstall/apex",
         Event.chmodCall "/postinstall/apex" 0o755,
         Event.chownCall "/postinstall/apex" 0 0,
         Event.chdirCall "/postinstall",
         Event.chrootCall "."])) ∧
    (env.tmpfsOk = true → env.restoreconOk = true → env.chmodOk = true →
     env.chownOk = true → env.chdirPostinstallOk = true → env.chrootOk = true →
     env.chdirRootOk = false →
      stagingStage argc args env = (exitCode .chdirRootFail,
        [Event.mountCall "tmpfs" "/postinstall/apex" "tmpfs"
          ["MS_NODEV", "MS_NOEXEC", "MS_NOSUID"],
         Event.restorecon "/postinstall/apex",
         Event.chmodCall "/postinstall/apex" 0o755,
         Event.chownCall "/postinstall/apex" 0 0,
         Event.chdirCall "/postinstall",
         Event.chrootCall ".",
         Event.chdirCall "/"])) ∧
    (env.tmpfsOk = true → env.restoreconOk = true → env.chmodOk = true →
     env.chownOk = true → env.chdirPostinstallOk = true → env.chrootOk = true →
     env.chdirRootOk = true →
      ∃ rest, (stagingStage argc args env).2
        = [Event.mountCall "tmpfs" "/postinstall/apex" "tmpfs"
             ["MS_NODEV", "MS_NOEXEC", "MS_NOSUID"],
           Event.restorecon "/postinstall/apex",
           Event.chmodCall "/postinstall/apex" 0o755,
           Event.chownCall "/postinstall/apex" 0 0,
           Event.chdirCall "/postinstall",
           Event.chrootCall ".",
           Event.chdirCall "/"] ++ rest) := by
  refine ⟨by decide, ?_, ?_, ?_, ?_, ?_, ?_, ?_, ?_⟩
  · intro h1
    simp [stagingStage, h1]
  · intro h1 h2
    simp [stagingStage, h1, h2]
  · intro h1 h2 h3
    simp [stagingStage, h1, h2, h3]
  · intro h1 h2 h3 h4
    simp [stagingStage, h1, h2, h3, h4]
  · intro h1 h2 h3 h4 h5
    simp [stagingStage, h1, h2, h3, h4, h5]
  · intro h1 h2 h3 h4 h5 h6
    simp [stagingStage, h1, h2, h3, h4, h5, h6]
  · intro h1 h2 h3 h4 h5 h6 h7
    simp [stagingStage, h1, h2, h3, h4, h5, h6, h7]
  · intro h1 h2 h3 h4 h5 h6 h7
    refine ⟨(ActivateApexPackages env).2
      ++ (afterActivation argc args env (ActivateApexPackages env).1).2, ?_⟩
    simp [stagingStage, h1, h2, h3, h4, h5, h6, h7, List.append_assoc]

/-- Witness for C3: on the all-success environment the finalizer trace starts
with the seven ordered sub-step events. -/
theorem staging_finalizer_order_w :
    ∃ rest, (stagingStage 4 argsEx envAllOk).2
      = [Event.mountCall "tmpfs" "/postinstall/apex" "tmpfs"
           ["MS_NODEV", "MS_NOEXEC", "MS_NOSUID"],
         Event.restorecon "/postinstall/apex",
         Event.chmodCall "/postinstall/apex" 0o755,
         Event.chownCall "/postinstall/apex" 0 0,
         Event.chdirCall "/postinstall",
         Event.chrootCall ".",
         Event.chdirCall "/"] ++ rest :=
  (staging_finalizer_order 4 argsEx envAllOk).2.2.2.2.2.2.2.2
    rfl rfl rfl rfl rfl rfl rfl

/-- C5: a core directory bind-mount failure terminates the run with the
shared core-bind-mount code and no later step appears in the trace (no
partition mount, no staging-root finalization, no activation, no Bionic
mount, no sub-process execution); and in every run both the namespace
unshare and the private-marking of `/postinstall` precede every core
directory bind-mount. -/
theorem core_bind_fail_stops (argc : Nat) (args : List String) (env : Env) :
    precedes Event.isUnshare Event.isCoreBind (otapreopt_chroot argc args env).2 ∧
    precedes Event.isPrivateMount Event.isCoreBind (otapreopt_chroot argc args env).2 ∧
    (3 ≤ argc → env.unshareOk = true → env.privateMountOk = true →
      (coreBindLoop env kBindMounts).1 = false →
      (otapreopt_chroot argc args env).1 = exitCode .coreBindFail ∧
      ∀ e ∈ (otapreopt_chroot argc args env).2, Event.isLaterStep e = false) := by
  refine ⟨isolation_precedes_coreBind argc args env _ (Or.inl rfl),
    isolation_precedes_coreBind argc args env _ (Or.inr (by decide)), ?_⟩
  intro h3 hus hpm hc
  have h3' : ¬ argc < 3 := by omega
  simp only [otapreopt_chroot, coreMountStage, h3', hus, hpm, hc, if_true, if_false,
    ite_true, ite_false, Bool.false_eq_true]
  constructor
  · trivial
  · intro e he
    simp only [List.append_assoc, List.mem_append, List.mem_cons, List.not_mem_nil,
      or_false] at he
    rcases he with h | rfl | rfl | h
    · obtain ⟨n, rfl⟩ := initialCloses_events args e h
      rfl
    · rfl
    · decide
    · obtain ⟨d, hd, rfl⟩ := coreBindLoop_events env kBindMounts e h
      fin_cases hd <;> decide

/-- An environment whose bind-mounts all fail (so the first core directory
bind-mount is fatal). -/
def envBindFail : Env :=
  { envAllOk with bindOk := fun _ _ => false }

/-- Witness for C5 at a concrete run whose core bind-mounts fail. -/
theorem core_bind_fail_stops_w :
    (otapreopt_chroot 4 argsEx envBindFail).1 = exitCode .coreBindFail ∧
    ∀ e ∈ (otapreopt_chroot 4 argsEx envBindFail).2, Event.isLaterStep e = false :=
  (core_bind_fail_stops 4 argsEx envBindFail).2.2 (by decide) rfl rfl rfl

/-- C2: if the slot suffix fails validation, no vendor or product partition
mount is ever attempted (so no device path is built from the unvalidated
suffix), and a run that reaches the validation step terminates with the
invalid-slot-suffix exit code. -/
theorem invalid_slot_no_partition_mount (argc : Nat) (args : List String) (env : Env)
    (hv : env.validSlot (args.getD 2 "") = false) :
    (∀ e ∈ (otapreopt_chroot argc args env).2, Event.isPartitionMount e = false) ∧
    (3 ≤ argc → env.unshareOk = true → env.privateMountOk = true →
      (coreBindLoop env kBindMounts).1 = true →
      (otapreopt_chroot argc args env).1 = exitCode .invalidSlot) := by
  constructor
  · intro e he
    by_cases h3 : argc < 3
    · simp [otapreopt_chroot, h3] at he
    · by_cases hus : env.unshareOk = true
      · by_cases hpm : env.privateMountOk = true
        · by_cases hc : (coreBindLoop env kBindMounts).1 = true
          · simp only [otapreopt_chroot, coreMountStage, partitionStage, h3, hus,
              hpm, hc, hv, if_true, if_false, ite_true, ite_false,
              Bool.false_eq_true, List.append_nil] at he
            simp only [List.append_assoc, List.mem_append, List.mem_cons,
              List.not_mem_nil, or_false] at he
            rcases he with h | rfl | rfl | h
            · obtain ⟨n, rfl⟩ := initialCloses_events args e h
              rfl
            · rfl
            · decide
            · obtain ⟨d, hd, rfl⟩ := coreBindLoop_events env kBindMounts e h
              fin_cases hd <;> decide
          · rw [Bool.not_eq_true] at hc
            simp only [otapreopt_chroot, coreMountStage, h3, hus, hpm, hc, if_true,
              if_false, ite_true, ite_false, Bool.false_eq_true] at he
            simp only [List.append_assoc, List.mem_append, List.mem_cons,
              List.not_mem_nil, or_false] at he
            rcases he with h | rfl | rfl | h
            · obtain ⟨n, rfl⟩ := initialCloses_events args e h
              rfl
            · rfl
            · decide
            · obtain ⟨d, hd, rfl⟩ := coreBindLoop_events env kBindMounts e h
              fin_cases hd <;> decide
        · rw [Bool.not_eq_true] at hpm
          simp only [otapreopt_chroot, h3, hus, hpm, if_true, if_false, ite_true,
            ite_false, Bool.false_eq_true] at he
          simp only [List.append_assoc, List.mem_append, List.mem_cons,
            List.not_mem_nil, or_false] at he
          rcases he with h | rfl | rfl
          · obtain ⟨n, rfl⟩ := initialCloses_events args e h
            rfl
          · rfl
          · decide
      · rw [Bool.not_eq_true] at hus
        simp only [otapreopt_chroot, h3, hus, if_true, if_false, ite_true,
          ite_false, Bool.false_eq_true] at he
        simp only [List.mem_append, List.mem_cons, List.not_mem_nil, or_false] at he
        rcases he with h | rfl
        · obtain ⟨n, rfl⟩ := initialCloses_events args e h
          rfl
        · rfl
  · intro h3 hus hpm hc
    have h3' : ¬ argc < 3 := by omega
    have hv' : env.validSlot (args[2]?.getD "") = false := by
      simpa using hv
    simp [otapreopt_chroot, coreMountStage, partitionStage, h3', hus, hpm, hc, hv']

/-- An environment whose slot-suffix validator rejects every suffix. -/
def envBadSlot : Env :=
  { envAllOk with validSlot := fun _ => false }

/-- Witness for C2 at a concrete run with an invalid slot suffix. -/
theorem invalid_slot_no_partition_mount_w :
    (otapreopt_chroot 4 argsEx envBadSlot).1 = exitCode .invalidSlot :=
  (invalid_slot_no_partition_mount 4 argsEx envBadSlot rfl).2 (by decide) rfl rfl rfl

lemma afterActivation_ok (argc : Nat) (args : List String) (env : Env)
    (active : List String)
    (h32 : (BindMountBionic env kRuntimeLinkerPath kRuntimeBionicLibsDir
        kLinkerMountPoint kBionicLibsMountPointDir).1 = true)
    (h64 : (BindMountBionic env kRuntimeLinkerPath64 kRuntimeBionicLibsDir64
        kLinkerMountPoint64 kBionicLibsMountPointDir64).1 = true) :
    afterActivation argc args env active
      = (if env.execOk then 0 else exitCode .execFail,
          (BindMountBionic env kRuntimeLinkerPath kRuntimeBionicLibsDir
              kLinkerMountPoint kBionicLibsMountPointDir).2
            ++ (BindMountBionic env kRuntimeLinkerPath64 kRuntimeBionicLibsDir64
                kLinkerMountPoint64 kBionicLibsMountPointDir64).2
            ++ Event.execCall (buildCmd argc args)
              :: DeactivateApexPackages active) := by
  by_cases he : env.execOk
  · simp [afterActivation, h32, h64, he, List.append_assoc]
  · simp [afterActivation, h32, h64, he, List.append_assoc]

/-- C6: in a run that reaches the sub-process launch, the exit status is the
dedicated execution-failure code when `Exec` fails and 0 when it succeeds,
and in either case the trace ends with the `Exec` attempt followed by the
deactivation of every activated package — so the termination happens only
after deactivation is performed. -/
theorem exec_outcome_decides_exit (argc : Nat) (args : List String) (env : Env)
    (hargc : 3 ≤ argc) (hu : env.unshareOk = true) (hpm : env.privateMountOk = true)
    (hcore : ∀ d ∈ kBindMounts, env.bindOk d ("/postinstall" ++ d) = true)
    (hslot : env.validSlot (args.getD 2 "") = true)
    (htmp : env.tmpfsOk = true) (hre : env.restoreconOk = true)
    (hcm : env.chmodOk = true) (hco : env.chownOk = true)
    (hcd : env.chdirPostinstallOk = true) (hcr : env.chrootOk = true)
    (hcd2 : env.chdirRootOk = true)
    (h32 : (BindMountBionic env kRuntimeLinkerPath kRuntimeBionicLibsDir
        kLinkerMountPoint kBionicLibsMountPointDir).1 = true)
    (h64 : (BindMountBionic env kRuntimeLinkerPath64 kRuntimeBionicLibsDir64
        kLinkerMountPoint64 kBionicLibsMountPointDir64).1 = true) :
    (env.execOk = false →
      (otapreopt_chroot argc args env).1 = exitCode .execFail) ∧
    (env.execOk = true → (otapreopt_chroot argc args env).1 = 0) ∧
    (∃ pre, (otapreopt_chroot argc args env).2
        = pre ++ Event.execCall (buildCmd argc args)
            :: DeactivateApexPackages env.activePackages) := by
  rw [run_reaches_activation argc args env hargc hu hpm hcore hslot htmp hre hcm
    hco hcd hcr hcd2,
    afterActivation_ok argc args env env.activePackages h32 h64]
  refine ⟨?_, ?_, ?_⟩
  · intro he
    simp [he]
  · intro he
    simp [he]
  · refine ⟨preActivationTrace args
      ++ ((BindMountBionic env kRuntimeLinkerPath kRuntimeBionicLibsDir
            kLinkerMountPoint kBionicLibsMountPointDir).2
          ++ (BindMountBionic env kRuntimeLinkerPath64 kRuntimeBionicLibsDir64
              kLinkerMountPoint64 kBionicLibsMountPointDir64).2), ?_⟩
    simp [List.append_assoc]

/-- Witness for C6 at a concrete run whose sub-process execution fails:
the exit code is the dedicated execution-failure code. -/
theorem exec_outcome_decides_exit_w :
    (otapreopt_chroot 4 argsEx envExecFail).1 = exitCode .execFail :=
  (exec_outcome_decides_exit 4 argsEx envExecFail (by decide) rfl rfl
    (fun _ _ => rfl) rfl rfl rfl rfl rfl rfl rfl rfl (by decide) (by decide)).1 rfl

end Otapreopt
